import Mathlib

/-!
Shallow embedding of the rusty_bird core simulation (src/main.rs).
The f32 values of the source are modelled as exact rationals; the
specs ECS registry is modelled by explicit lists of entities, and the
deferred create/delete queue by deletion marks plus a pending spawn
list that is committed at the end of the tick (`World::maintain`).
-/

namespace RustyBird

/-- Gravity constant: `const GRAVITY: f32 = 0.3` (main.rs line 9). -/
def GRAVITY : ℚ := 3 / 10

/-- The `Game` resource: `playing` flag and `score` (main.rs lines 11-15). -/
structure Game where
  playing : Bool
  score : ℤ
  deriving DecidableEq

/-- `Game::new()` (main.rs lines 17-24): playing, score 0. -/
def Game.init : Game := ⟨true, 0⟩

/-- The `Direction` input resource: `jump` request flag and key `release`
flag (main.rs lines 64-68). -/
structure Direction where
  jump : Bool
  release : Bool
  deriving DecidableEq

/-- `Direction::new()` (main.rs lines 70-77): no jump requested, key released. -/
def Direction.init : Direction := ⟨false, true⟩

/-- The `Position` component (main.rs lines 57-62): `position` (x, y) and
`speed` (sx, sy). -/
structure Pos where
  x : ℚ
  y : ℚ
  sx : ℚ
  sy : ℚ
  deriving DecidableEq

/-- The `Animation` component's timing fields (main.rs lines 79-85):
`current_frame` and `max`; the image vector is irrelevant to timing. -/
structure Anim where
  current_frame : ℕ
  max : ℕ
  deriving DecidableEq

/-- The `BackgroundTag` component (main.rs lines 108-114): scroll
`velocity`, tile `width` and `num_copies`.  This is the spec's ScrollTag. -/
structure BackgroundTag where
  velocity : ℚ
  width : ℚ
  num_copies : ℕ
  deriving DecidableEq

/-- The `CollisionBox` component (main.rs lines 299-305): `origin` (x, y),
`height` and `width`. -/
structure CollisionBox where
  x : ℚ
  y : ℚ
  height : ℚ
  width : ℚ
  deriving DecidableEq

/-- One obstacle-half entity: its `Position`, `BackgroundTag`, the
`ObstacleTag` payload (`top` flag, plus which slot of the shared
four-image set it displays, recorded as the index `img`), and its
`CollisionBox` (main.rs lines 116-121, 519-578). -/
structure Obstacle where
  pos : Pos
  tag : BackgroundTag
  top : Bool
  img : ℕ
  box : CollisionBox
  deriving DecidableEq

/-- A background / floor entity: `Position` plus `BackgroundTag`, no
`ObstacleTag` and no `CollisionBox` (main.rs lines 478-517). -/
structure BgEnt where
  pos : Pos
  tag : BackgroundTag
  deriving DecidableEq

/-- The gap configuration chosen for a respawned obstacle pair: the top
half's y, the bottom half's y, and the index of the bottom half's image
in the shared image set (main.rs lines 179-202). -/
structure GapConfig where
  top_y : ℚ
  bottom_y : ℚ
  bottom_img : ℕ
  deriving DecidableEq

/-- The `match choice` in MovementSystem::run (main.rs lines 181-202):
arms 0, 1, 2 and the catch-all `_` arm.  For a crossing top obstacle the
code first sets `pos.position.y = 600.0` (line 174) and the selected arm
then overwrites it (the `_` arm writes 600.0 again), so the net top y is
the arm's value. -/
def gapChoice : ℕ → GapConfig
  | 0 => ⟨-240, 240, 0⟩
  | 1 => ⟨-120, 360, 1⟩
  | 2 => ⟨0, 480, 2⟩
  | _ => ⟨600, 600, 0⟩

/-- The configuration of the implicit `_` fallback arm (main.rs lines 197-201). -/
def fallbackGap : GapConfig := ⟨600, 600, 0⟩

/-- The three explicit arm configurations, in arm order (main.rs lines 182-196). -/
def explicitGaps : List GapConfig := [⟨-240, 240, 0⟩, ⟨-120, 360, 1⟩, ⟨0, 480, 2⟩]

/-- The velocity update of the vertical-integration loop (main.rs lines
141-148): if `dir.jump && dir.release`, subtract the 10.0 impulse only
when the current vertical speed is strictly greater than -10.0; otherwise
add GRAVITY while the speed is below 6.0. -/
def velAfterInput (d : Direction) (vy : ℚ) : ℚ :=
  if d.jump && d.release then
    if vy > -10 then vy - 10 else vy
  else
    if vy < 6 then vy + GRAVITY else vy

/-- The input update of the vertical-integration loop (main.rs line 145):
`dir.jump = false` exactly when the `dir.jump && dir.release` branch ran. -/
def dirAfterInput (d : Direction) : Direction :=
  if d.jump && d.release then ⟨false, d.release⟩ else d

/-- One vertical-integration step for the controllable entity (main.rs
lines 140-159): velocity update, `position.y += speed.y`, then the
[0, 460] clamp which zeroes the vertical speed at either bound. -/
def verticalStep (d : Direction) (p : Pos) : Direction × Pos :=
  let vy := velAfterInput d p.sy
  let y := p.y + vy
  let d2 := dirAfterInput d
  if y < 0 then (d2, { p with y := 0, sy := 0 })
  else if y > 460 then (d2, { p with y := 460, sy := 0 })
  else (d2, { p with y := y, sy := vy })

/-- One background-scroll step (main.rs lines 161-167): `position.x -=
velocity`; when the result is below `-width`, wrap by adding
`width * num_copies`. -/
def bgStep (e : BgEnt) : BgEnt :=
  let x := e.pos.x - e.tag.velocity
  if x < -e.tag.width then
    { e with pos := { e.pos with x := x + e.tag.width * (e.tag.num_copies : ℚ) } }
  else
    { e with pos := { e.pos with x := x } }

/-- The pair of obstacle halves inserted for a retiring pair (main.rs
lines 204-270): both at x = 1024.0 with speed (0, 0), the top half at the
configuration's top y displaying image slot 3, the bottom half at the
configuration's bottom y displaying the configuration's bottom image
slot; each gets a `BackgroundTag` with velocity 4.0, width 64.0, one
copy, and a `CollisionBox` at its own position with height 240.0 and
width 64.0. -/
def spawnPair (cfg : GapConfig) : Obstacle × Obstacle :=
  (⟨⟨1024, cfg.top_y, 0, 0⟩, ⟨4, 64, 1⟩, true, 3, ⟨1024, cfg.top_y, 240, 64⟩⟩,
   ⟨⟨1024, cfg.bottom_y, 0, 0⟩, ⟨4, 64, 1⟩, false, cfg.bottom_img, ⟨1024, cfg.bottom_y, 240, 64⟩⟩)

/-- The obstacle scroll-and-recycle loop (main.rs lines 169-273) over the
obstacle entities in registry order.  `rng k` is the k-th value returned
by `rng.gen_range(0, 3)`; a draw is consumed by every crossing entity
(line 177 runs before the `obs.top` test).  Returns the entity list with
deferred-deletion marks (the crossing entities keep their mutated
positions until `maintain`), the pending spawn list, and the advanced
rng cursor. -/
def obstaclePass (rng : ℕ → ℕ) : ℕ → List Obstacle → List (Obstacle × Bool) × List Obstacle × ℕ
  | k, [] => ([], [], k)
  | k, o :: rest =>
    let x := o.pos.x - o.tag.velocity
    if x < -o.tag.width then
      let choice := rng k
      let tail := obstaclePass rng (k + 1) rest
      if o.top then
        let cfg := gapChoice choice
        (({ o with pos := { o.pos with x := 1024, y := cfg.top_y } }, true) :: tail.1,
         (spawnPair cfg).1 :: (spawnPair cfg).2 :: tail.2.1, tail.2.2)
      else
        (({ o with pos := { o.pos with x := 1024, y := 600 } }, true) :: tail.1,
         tail.2.1, tail.2.2)
    else
      let tail := obstaclePass rng k rest
      (({ o with pos := { o.pos with x := x } }, false) :: tail.1, tail.2.1, tail.2.2)

/-- `World::maintain` (main.rs line 359) restricted to the obstacle
entities: apply the deferred deletions and append the deferred creations
in insertion order. -/
def maintainObstacles (marked : List (Obstacle × Bool)) (spawned : List Obstacle) : List Obstacle :=
  (marked.filter (fun od => !od.2)).map Prod.fst ++ spawned

/-- The axis-aligned overlap test of CollisionSystem::run (main.rs lines
325-328): four strict inequalities, so boxes that merely touch at an
edge do not overlap. -/
def overlapsBox (p q : CollisionBox) : Prop :=
  p.x < q.x + q.width ∧ p.x + p.width > q.x ∧ p.y < q.y + q.height ∧ p.y + p.height > q.y

instance (p q : CollisionBox) : Decidable (overlapsBox p q) := by
  unfold overlapsBox
  infer_instance

/-- CollisionSystem::run (main.rs lines 317-338): the player box (the
unique entity with both a `CollisionBox` and an `Animation`) is tested
against every other box (entities with a `Position` and a `CollisionBox`
and no `Animation`); if any overlap was found, `game.playing = false`. -/
def collisionRun (g : Game) (playerBox : CollisionBox) (others : List CollisionBox) : Game :=
  if ∃ b ∈ others, overlapsBox playerBox b then { g with playing := false } else g

/-- AnimationSystem::run for one entity (main.rs lines 287-296):
increment `current_frame`, resetting to 0 when it reaches `max`. -/
def animStep (a : Anim) : Anim :=
  if a.current_frame + 1 ≥ a.max then { a with current_frame := 0 }
  else { a with current_frame := a.current_frame + 1 }

/-- The whole mutable state read and written by one tick: the `Game` and
`Direction` resources, `State::player_input`, the controllable entity
(position, animation, collision box), the background/floor entities and
the obstacle entities, plus the rng cursor. -/
structure WState where
  game : Game
  playerInput : Direction
  dir : Direction
  player : Pos
  anim : Anim
  playerBox : CollisionBox
  bgs : List BgEnt
  obstacles : List Obstacle
  rngK : ℕ
  deriving DecidableEq

/-- State::key_down_event for a fresh Space press (main.rs lines 414-436):
set `player_input.jump`, clear `player_input.release`, then copy
`player_input` wholesale into the `Direction` resource. -/
def pressEvent (w : WState) : WState :=
  { w with playerInput := ⟨true, false⟩, dir := ⟨true, false⟩ }

/-- State::key_up_event for Space (main.rs lines 438-445): set
`player_input.release` (leaving `player_input.jump` as it was), then copy
`player_input` wholesale into the `Direction` resource. -/
def releaseEvent (w : WState) : WState :=
  { w with playerInput := ⟨w.playerInput.jump, true⟩,
           dir := ⟨w.playerInput.jump, true⟩ }

/-- State::update, one tick (main.rs lines 342-362): return unchanged
unless playing; otherwise increment the score, run `animSteps` animation
steps (the fixed-rate accumulator's count for this frame), run the
Movement System (vertical integration, background scroll, obstacle
scroll/recycle, collision-volume sync), run the Collision System over
the boxes present in the registry this tick (pending spawns are not yet
committed, deferred deletions not yet applied), then `maintain`. -/
def tick (rng : ℕ → ℕ) (animSteps : ℕ) (w : WState) : WState :=
  if w.game.playing = false then w
  else
    let g := { w.game with score := w.game.score + 1 }
    let a := animStep^[animSteps] w.anim
    let dp := verticalStep w.dir w.player
    let bgs2 := w.bgs.map bgStep
    let ops := obstaclePass rng w.rngK w.obstacles
    let pBox := { w.playerBox with x := dp.2.x, y := dp.2.y }
    let marked := ops.1.map (fun od =>
      ({ od.1 with box := { od.1.box with x := od.1.pos.x, y := od.1.pos.y } }, od.2))
    let g2 := collisionRun g pBox (marked.map (fun od => od.1.box))
    { game := g2, playerInput := w.playerInput, dir := dp.1, player := dp.2, anim := a,
      playerBox := pBox, bgs := bgs2,
      obstacles := (marked.filter (fun od => !od.2)).map Prod.fst ++ ops.2.1,
      rngK := ops.2.2 }

/-- The background and floor entities created in main (main.rs lines
478-517): two background layers (velocities 2.0 and 3.0, width 760.0,
three copies each) and five floor tiles (velocity 4.0, width 320.0). -/
def initBgs : List BgEnt :=
  (List.range 3).map (fun n => ⟨⟨760 * (n : ℚ), 0, 0, 0⟩, ⟨2, 760, 3⟩⟩)
  ++ (List.range 3).map (fun n => ⟨⟨760 * (n : ℚ), 0, 0, 0⟩, ⟨3, 760, 3⟩⟩)
  ++ (List.range 5).map (fun n => ⟨⟨320 * (n : ℚ), 520, 0, 0⟩, ⟨4, 320, 5⟩⟩)

/-- The six obstacle halves created in main (main.rs lines 519-578):
three bottoms at (340n + 900, 360) with image slot 1 and three tops at
(340n + 900, -120) with image slot 3, all with velocity 4.0, width 64.0,
one copy, and a 240 x 64 collision box at their position. -/
def initObstacles : List Obstacle :=
  (List.range 3).map (fun n =>
    ⟨⟨340 * (n : ℚ) + 900, 360, 0, 0⟩, ⟨4, 64, 1⟩, false, 1,
     ⟨340 * (n : ℚ) + 900, 360, 240, 64⟩⟩)
  ++ (List.range 3).map (fun n =>
    ⟨⟨340 * (n : ℚ) + 900, -120, 0, 0⟩, ⟨4, 64, 1⟩, true, 3,
     ⟨340 * (n : ℚ) + 900, -120, 240, 64⟩⟩)

/-- The state right after main's initialization (main.rs lines 470-601):
the bird at (100, 200) with speed (0, 0), a four-frame animation, a
72-tall 58-wide collision box, fresh `Game` and `Direction` resources. -/
def initWorld : WState :=
  { game := Game.init, playerInput := Direction.init, dir := Direction.init,
    player := ⟨100, 200, 0, 0⟩, anim := ⟨0, 4⟩, playerBox := ⟨100, 200, 72, 58⟩,
    bgs := initBgs, obstacles := initObstacles, rngK := 0 }

/-- A fixed rng stream that always draws 0, for concrete evaluations. -/
def rngZero : ℕ → ℕ := fun _ => 0

/-- A concrete game-over state: `initWorld` after the round has ended
with some score. -/
def gameOverWorld : WState := { initWorld with game := ⟨false, 7⟩ }

/-- `initWorld` with the obstacle entities removed, so that no collision
can ever end the round. -/
def skyWorld : WState := { initWorld with obstacles := [] }

/-- `initWorld` with no background and no obstacle entities: neither
kind participates in the vertical integration of the bird, and with no
obstacle boxes no collision can end the round. -/
def loneBirdWorld : WState := { initWorld with bgs := [], obstacles := [] }

/-- Trace for the velocity-bound analysis: press and release Space, tick
(fresh jump from speed 0), tick (gravity). -/
def doubleJumpMid : WState :=
  tick rngZero 0 (tick rngZero 0 (releaseEvent (pressEvent loneBirdWorld)))

/-- Trace continued: press and release Space again and tick, so the
Movement System applies a second impulse while still moving upward. -/
def doubleJumpEnd : WState :=
  tick rngZero 0 (releaseEvent (pressEvent doubleJumpMid))

/-- The vertical-integration step leaves the input direction as
`dirAfterInput` in every clamp branch. -/
theorem verticalStep_fst (d : Direction) (p : Pos) :
    (verticalStep d p).1 = dirAfterInput d := by
  unfold verticalStep
  dsimp only
  split
  · rfl
  · split <;> rfl

/-- The velocity update maps the open interval (-20, 63/10) into itself. -/
theorem velAfterInput_bounds (d : Direction) (vy : ℚ) (h1 : -20 < vy) (h2 : vy < 63 / 10) :
    -20 < velAfterInput d vy ∧ velAfterInput d vy < 63 / 10 := by
  unfold velAfterInput GRAVITY
  split
  · split <;> constructor <;> linarith
  · split <;> constructor <;> linarith

/-- When the jump branch cannot run, the velocity update is never the
-10.0 impulse. -/
theorem velAfterInput_ne_impulse (d : Direction) (v : ℚ)
    (h : d.jump = false ∨ d.release = false) : velAfterInput d v ≠ v - 10 := by
  have hb : (d.jump && d.release) = false := by
    rcases h with h | h <;> simp [h]
  unfold velAfterInput GRAVITY
  rw [hb]
  simp only [Bool.false_eq_true, if_false]
  split <;> intro hc <;> linarith

/-- The collision pass never changes the score. -/
theorem collisionRun_score (g : Game) (pb : CollisionBox) (os : List CollisionBox) :
    (collisionRun g pb os).score = g.score := by
  unfold collisionRun
  split <;> rfl

/-- Claim C1 (counterexample): the controllable entity's vertical
velocity is not always within [-10.0, 6.0] after a Movement System
invocation.  Starting from the initial state, jump (speed becomes
-10.0), let gravity act one tick (speed -9.7), then jump again: the
guard `speed.y > -10.0` passes and the invocation leaves speed
-19.7, outside the claimed interval. -/
theorem movement_velocity_exceeds_claimed_bounds :
    ¬ (-10 ≤ doubleJumpEnd.player.sy ∧ doubleJumpEnd.player.sy ≤ 6) := by
  have h : doubleJumpEnd.player.sy = -197 / 10 := by
    norm_num [doubleJumpEnd, doubleJumpMid, tick, pressEvent, releaseEvent, loneBirdWorld,
      initWorld, Game.init, Direction.init, verticalStep, velAfterInput, dirAfterInput,
      GRAVITY, obstaclePass, collisionRun, animStep, maintainObstacles]
  rw [h]
  norm_num

/-- Claim C1 (amended): after every Movement System vertical-integration
step, `Position.y` is within [0.0, 460.0] and touching either bound
zeroes the vertical velocity; the vertical velocity stays within the
invariant interval (-20.0, 6.3) — not [-10.0, 6.0], since a fresh jump
at a speed just above -10.0 lands just above -20.0 and gravity at a
speed just below 6.0 lands just below 6.3. -/
theorem movement_position_velocity_bounds (d : Direction) (p : Pos) :
    (0 ≤ (verticalStep d p).2.y ∧ (verticalStep d p).2.y ≤ 460)
    ∧ (-20 < p.sy → p.sy < 63 / 10 →
        -20 < (verticalStep d p).2.sy ∧ (verticalStep d p).2.sy < 63 / 10)
    ∧ (p.y + velAfterInput d p.sy < 0 ∨ p.y + velAfterInput d p.sy > 460 →
        (verticalStep d p).2.sy = 0) := by
  unfold verticalStep
  dsimp only
  split
  case isTrue h =>
    refine ⟨⟨le_refl 0, by norm_num⟩, fun h1 h2 => ⟨by norm_num, by norm_num⟩, fun h3 => rfl⟩
  case isFalse h =>
    split
    case isTrue h4 =>
      refine ⟨⟨by norm_num, le_refl 460⟩, fun h1 h2 => ⟨by norm_num, by norm_num⟩, fun h3 => rfl⟩
    case isFalse h4 =>
      dsimp only
      refine ⟨⟨not_lt.mp h, not_lt.mp h4⟩,
        fun h1 h2 => velAfterInput_bounds d p.sy h1 h2,
        fun h3 => ?_⟩
      rcases h3 with h3 | h3
      · exact absurd h3 h
      · exact absurd h3 h4

/-- Witness for Claim C1's amended theorem: the initial bird state
satisfies the velocity hypotheses, and a state about to cross the lower
bound gets its velocity zeroed. -/
theorem movement_position_velocity_bounds_witness :
    (-20 < (verticalStep ⟨false, true⟩ ⟨100, 200, 0, 0⟩).2.sy
      ∧ (verticalStep ⟨false, true⟩ ⟨100, 200, 0, 0⟩).2.sy < 63 / 10)
    ∧ (verticalStep ⟨false, true⟩ ⟨100, 460, 0, 5⟩).2.sy = 0 :=
  ⟨(movement_position_velocity_bounds ⟨false, true⟩ ⟨100, 200, 0, 0⟩).2.1
      (by norm_num) (by norm_num),
   (movement_position_velocity_bounds ⟨false, true⟩ ⟨100, 460, 0, 5⟩).2.2
      (Or.inr (by norm_num [velAfterInput, GRAVITY]))⟩

/-- Claim C4 (counterexample): the impulse is not applied "exactly when
jump_requested and jump_key_released are true".  Vertical speed -10.0 is
reachable (the very first fresh jump from speed 0 lands exactly there),
-10.0 is not "already below -10.0", yet with both flags set the code's
strict guard `speed.y > -10.0` suppresses the impulse and leaves the
speed unchanged. -/
theorem jump_at_exact_negative_ten_no_impulse :
    velAfterInput ⟨true, true⟩ 0 = -10
    ∧ velAfterInput ⟨true, true⟩ (-10) ≠ -10 - 10
    ∧ ¬ ((-10 : ℚ) < -10) :=
  ⟨by norm_num [velAfterInput], by norm_num [velAfterInput], by norm_num⟩

/-- Claim C4 (amended): the -10.0 jump impulse is applied exactly when
`jump_requested` and `jump_key_released` are both true and the current
vertical velocity is strictly greater than -10.0 (at exactly -10.0 or
below, no impulse); whenever both flags are true `jump_requested` is
cleared afterwards, and otherwise the input is untouched; on a tick with
no jump, gravity +0.3 is added exactly when the velocity is below 6.0;
then `Position.y` increases by the updated velocity (here stated off the
clamp bounds). -/
theorem jump_gravity_integration_rules (d : Direction) (vy : ℚ) (p : Pos) :
    (velAfterInput d vy = vy - 10 ↔ d.jump = true ∧ d.release = true ∧ -10 < vy)
    ∧ (d.jump = true → d.release = true → (dirAfterInput d).jump = false)
    ∧ (¬(d.jump = true ∧ d.release = true) → dirAfterInput d = d)
    ∧ (¬(d.jump = true ∧ d.release = true) → (velAfterInput d vy = vy + GRAVITY ↔ vy < 6))
    ∧ (0 ≤ p.y + velAfterInput d p.sy → p.y + velAfterInput d p.sy ≤ 460 →
        (verticalStep d p).2.y = p.y + velAfterInput d p.sy) := by
  refine ⟨?_, ?_, ?_, ?_, ?_⟩
  · by_cases hb : (d.jump && d.release) = true
    · have hb2 := hb
      simp only [Bool.and_eq_true] at hb2
      obtain ⟨hj, hr⟩ := hb2
      unfold velAfterInput
      rw [if_pos hb]
      simp only [hj, hr, true_and]
      by_cases hvy : vy > -10
      · rw [if_pos hvy]
        exact ⟨fun _ => hvy, fun _ => rfl⟩
      · rw [if_neg hvy]
        constructor
        · intro hc
          exfalso
          linarith
        · intro hv
          exact absurd hv hvy
    · have hbf : (d.jump && d.release) = false := by
        cases h1 : d.jump <;> cases h2 : d.release <;> simp_all
      have hnot : ¬(d.jump = true ∧ d.release = true) := by
        intro hand
        exact hb (by rw [hand.1, hand.2]; rfl)
      unfold velAfterInput GRAVITY
      rw [hbf]
      simp only [Bool.false_eq_true, if_false]
      constructor
      · intro hc
        exfalso
        by_cases hvy : vy < 6
        · rw [if_pos hvy] at hc
          linarith
        · rw [if_neg hvy] at hc
          linarith
      · intro hr3
        exact absurd ⟨hr3.1, hr3.2.1⟩ hnot
  · intro hj hr
    have hb : (d.jump && d.release) = true := by rw [hj, hr]; rfl
    unfold dirAfterInput
    rw [if_pos hb]
  · intro hnot
    have hbf : (d.jump && d.release) = false := by
      cases h1 : d.jump <;> cases h2 : d.release <;> simp_all
    unfold dirAfterInput
    rw [hbf]
    simp only [Bool.false_eq_true, if_false]
  · intro hnot
    have hbf : (d.jump && d.release) = false := by
      cases h1 : d.jump <;> cases h2 : d.release <;> simp_all
    unfold velAfterInput GRAVITY
    rw [hbf]
    simp only [Bool.false_eq_true, if_false]
    constructor
    · intro hc
      by_cases hvy : vy < 6
      · exact hvy
      · rw [if_neg hvy] at hc
        linarith
    · intro hvy
      rw [if_pos hvy]
  · intro h0 h460
    unfold verticalStep
    dsimp only
    rw [if_neg (not_lt.mpr h0), if_neg (not_lt.mpr h460)]

/-- Witness for Claim C4's amended theorem: a fresh jump from speed 0
applies the impulse, and a no-jump gravity tick moves the bird from
y = 200 to y = 200.3. -/
theorem jump_gravity_integration_rules_witness :
    velAfterInput ⟨true, true⟩ 0 = 0 - 10
    ∧ (verticalStep ⟨false, true⟩ ⟨100, 200, 0, 0⟩).2.y
        = 200 + velAfterInput ⟨false, true⟩ (0 : ℚ) :=
  ⟨(jump_gravity_integration_rules ⟨true, true⟩ 0 ⟨100, 200, 0, 0⟩).1.mpr
      ⟨rfl, rfl, by norm_num⟩,
   (jump_gravity_integration_rules ⟨false, true⟩ 0 ⟨100, 200, 0, 0⟩).2.2.2.2
      (by norm_num [velAfterInput, GRAVITY]) (by norm_num [velAfterInput, GRAVITY])⟩

/-- Claim C2 (counterexample): the four gap configurations are not
selected "each with equal probability".  Over the three possible draws
0, 1 and 2 of `rng.gen_range(0, 3)`, the implicit fallback arm is
selected by zero draws while the first explicit configuration is
selected by exactly one, so their selection counts differ. -/
theorem gap_choice_not_equiprobable_over_four :
    (List.range 3).countP (fun c => decide (gapChoice c = fallbackGap)) = 0
    ∧ (List.range 3).countP (fun c => decide (gapChoice c = ⟨-240, 240, 0⟩)) = 1
    ∧ (0 : ℕ) ≠ 1 := by
  have hr : List.range 3 = [0, 1, 2] := rfl
  have h0 : gapChoice 0 ≠ fallbackGap := by norm_num [gapChoice, fallbackGap]
  have h1 : gapChoice 1 ≠ fallbackGap := by norm_num [gapChoice, fallbackGap]
  have h2 : gapChoice 2 ≠ fallbackGap := by norm_num [gapChoice, fallbackGap]
  have g0 : gapChoice 0 = (⟨-240, 240, 0⟩ : GapConfig) := rfl
  have g1 : gapChoice 1 ≠ (⟨-240, 240, 0⟩ : GapConfig) := by norm_num [gapChoice]
  have g2 : gapChoice 2 ≠ (⟨-240, 240, 0⟩ : GapConfig) := by norm_num [gapChoice]
  refine ⟨?_, ?_, by norm_num⟩
  · rw [hr]
    simp [List.countP_cons, h0, h1, h2]
  · rw [hr]
    simp [List.countP_cons, g0, g1, g2]

/-- Claim C2 (amended): every draw value in [0, 3) selects exactly one
of the three explicit gap configurations, a distinct one per draw value
(so each explicit configuration has probability 1/3); the implicit
fourth fallback configuration exists in the code but is never selected
by an in-range draw (probability 0). -/
theorem gap_choice_uniform_over_three :
    (List.range 3).map gapChoice = explicitGaps
    ∧ explicitGaps.Nodup
    ∧ fallbackGap ∉ explicitGaps := by
  refine ⟨rfl, ?_, ?_⟩
  · norm_num [explicitGaps]
  · norm_num [explicitGaps, fallbackGap]

/-- Claim C3: every newly created obstacle half of a respawned pair —
whatever the draw, including the fallback arm — gets a `CollisionBox` of
width exactly 64.0 and of height 240.0 (the code fixes every half's
obstacle height at the constant 240.0, for both halves under every gap
configuration), and a scroll tag with velocity 4.0. -/
theorem spawned_half_box_dimensions (choice : ℕ) :
    (spawnPair (gapChoice choice)).1.box.width = 64
    ∧ (spawnPair (gapChoice choice)).1.box.height = 240
    ∧ (spawnPair (gapChoice choice)).2.box.width = 64
    ∧ (spawnPair (gapChoice choice)).2.box.height = 240
    ∧ (spawnPair (gapChoice choice)).1.tag.velocity = 4
    ∧ (spawnPair (gapChoice choice)).2.tag.velocity = 4 :=
  ⟨rfl, rfl, rfl, rfl, rfl, rfl⟩

/-- Claim C5: the Collision System sets `playing` to false exactly when
some other collision box strictly overlaps the player's box on both
axes (four strict inequalities); boxes touching only at an edge
(`player.x + player.width = other.x`) never count as overlapping; and
the pass never turns `playing` back on. -/
theorem collision_sets_game_over_iff_overlap (g : Game) (pb : CollisionBox)
    (others : List CollisionBox) :
    ((collisionRun g pb others).playing = false
      ↔ g.playing = false ∨ ∃ b ∈ others, overlapsBox pb b)
    ∧ (∀ a b : CollisionBox, a.x + a.width = b.x → ¬ overlapsBox a b)
    ∧ ((collisionRun g pb others).playing = true → g.playing = true) := by
  refine ⟨?_, ?_, ?_⟩
  · unfold collisionRun
    split
    case isTrue h => simp [h]
    case isFalse h => simp [h]
  · intro a b hab
    unfold overlapsBox
    rintro ⟨h1, h2, h3, h4⟩
    rw [hab] at h2
    exact lt_irrefl _ h2
  · unfold collisionRun
    split
    case isTrue h =>
      intro hc
      simp at hc
    case isFalse h => exact fun hc => hc

/-- The bird's collision box in the spec's collision scenario. -/
def birdBox : CollisionBox := ⟨100, 200, 72, 58⟩

/-- An obstacle collision box overlapping the bird's box. -/
def pipeBox : CollisionBox := ⟨130, 180, 240, 64⟩

/-- Witness for Claim C5's theorem: the spec's scenario — player box
(100, 200) 72 tall 58 wide against obstacle box (130, 180) 240 tall 64
wide — overlaps, so `playing` becomes false. -/
theorem collision_sets_game_over_iff_overlap_witness :
    (collisionRun ⟨true, 41⟩ birdBox [pipeBox]).playing = false :=
  (collision_sets_game_over_iff_overlap ⟨true, 41⟩ birdBox [pipeBox]).1.mpr
    (Or.inr ⟨pipeBox, by simp, by norm_num [overlapsBox, birdBox, pipeBox]⟩)

/-- Claim C9: a non-obstacle scrolling entity's x decreases by its
velocity each tick; on the tick where the decremented x falls below
`-tile_width`, the committed x is `prev_x - velocity + width * copies`;
in every case the committed x differs from `prev_x - velocity` by either
0 or `width * copies`, so the wrap preserves relative spacing modulo
`width * copies`. -/
theorem background_scroll_wrap (e : BgEnt) :
    (e.pos.x - e.tag.velocity < -e.tag.width →
      (bgStep e).pos.x = e.pos.x - e.tag.velocity + e.tag.width * (e.tag.num_copies : ℚ))
    ∧ (¬ e.pos.x - e.tag.velocity < -e.tag.width →
      (bgStep e).pos.x = e.pos.x - e.tag.velocity)
    ∧ ((bgStep e).pos.x = e.pos.x - e.tag.velocity
        ∨ (bgStep e).pos.x = e.pos.x - e.tag.velocity + e.tag.width * (e.tag.num_copies : ℚ)) := by
  unfold bgStep
  dsimp only
  split
  case isTrue h =>
    exact ⟨fun _ => rfl, fun h2 => absurd h h2, Or.inr rfl⟩
  case isFalse h =>
    exact ⟨fun h1 => absurd h1 h, fun _ => rfl, Or.inl rfl⟩

/-- A floor tile (velocity 4.0, width 320.0, five copies) one step away
from wrapping. -/
def wrapFloorTile : BgEnt := ⟨⟨-320, 520, 0, 0⟩, ⟨4, 320, 5⟩⟩

/-- Witness for Claim C9's theorem: the floor tile at x = -320 scrolls
to -324, falls below -320, and is committed at -324 + 320 * 5 = 1276. -/
theorem background_scroll_wrap_witness :
    (bgStep wrapFloorTile).pos.x
      = wrapFloorTile.pos.x - wrapFloorTile.tag.velocity
        + wrapFloorTile.tag.width * (wrapFloorTile.tag.num_copies : ℚ) :=
  (background_scroll_wrap wrapFloorTile).1 (by norm_num [wrapFloorTile])

/-- Claim C6: on every tick that starts with `playing = true` the score
grows by exactly 1 (even if that same tick's collision ends the round,
since the increment runs first); and from any state with
`playing = false`, any number of further ticks leaves the score
untouched. -/
theorem score_increment_and_freeze (rng : ℕ → ℕ) (steps : ℕ) (w : WState) :
    (w.game.playing = true → (tick rng steps w).game.score = w.game.score + 1)
    ∧ (w.game.playing = false → ∀ n, ((tick rng steps)^[n] w).game.score = w.game.score) := by
  constructor
  · intro h
    simp [tick, h, collisionRun_score]
  · intro h n
    have hfix : tick rng steps w = w := by simp [tick, h]
    rw [Function.iterate_fixed hfix n]

/-- Witness for Claim C6's theorem: from the freshly initialized state
one tick brings the score from 0 to 1, while five ticks from a
game-over state with score 7 leave it at 7. -/
theorem score_increment_and_freeze_witness :
    (tick rngZero 0 initWorld).game.score = initWorld.game.score + 1
    ∧ ((tick rngZero 0)^[5] gameOverWorld).game.score = gameOverWorld.game.score :=
  ⟨(score_increment_and_freeze rngZero 0 initWorld).1 rfl,
   (score_increment_and_freeze rngZero 0 gameOverWorld).2 rfl 5⟩

/-- Claim C8: a tick that begins with `playing = false` returns the
whole state unchanged (State::update returns before touching anything),
so in particular the score, every entity's Position and every
CollisionBox are identical before and after the tick. -/
theorem game_over_tick_identity (rng : ℕ → ℕ) (steps : ℕ) (w : WState)
    (h : w.game.playing = false) : tick rng steps w = w := by
  simp [tick, h]

/-- Witness for Claim C8's theorem: a tick on a concrete game-over
state is the identity. -/
theorem game_over_tick_identity_witness :
    tick rngZero 1 gameOverWorld = gameOverWorld :=
  game_over_tick_identity rngZero 1 gameOverWorld rfl

/-- Claim C7: obstacle recycle is pair-atomic.  When an obstacle pair
(top half and bottom half at the same x, velocity 4.0, tile width 64.0)
scrolls past x < -64 this tick, both halves are marked for deletion,
and the committed obstacle registry after `maintain` is exactly one new
top half and one new bottom half, both at x = 1024.0, whose collision
heights sum to the fixed total span 480.0. -/
theorem obstacle_recycle_pair_atomic (rng : ℕ → ℕ) (k : ℕ) (t b : Obstacle)
    (ht : t.top = true) (hb : b.top = false)
    (htv : t.tag.velocity = 4) (htw : t.tag.width = 64)
    (hbv : b.tag.velocity = 4) (hbw : b.tag.width = 64)
    (hbx : b.pos.x = t.pos.x) (hcross : t.pos.x - 4 < -64) :
    (∀ od ∈ (obstaclePass rng k [t, b]).1, od.2 = true)
    ∧ maintainObstacles (obstaclePass rng k [t, b]).1 (obstaclePass rng k [t, b]).2.1
        = [(spawnPair (gapChoice (rng k))).1, (spawnPair (gapChoice (rng k))).2]
    ∧ (spawnPair (gapChoice (rng k))).1.top = true
    ∧ (spawnPair (gapChoice (rng k))).2.top = false
    ∧ (spawnPair (gapChoice (rng k))).1.pos.x = 1024
    ∧ (spawnPair (gapChoice (rng k))).2.pos.x = 1024
    ∧ (spawnPair (gapChoice (rng k))).1.box.height
        + (spawnPair (gapChoice (rng k))).2.box.height = 480 := by
  have h1 : t.pos.x - t.tag.velocity < -t.tag.width := by
    rw [htv, htw]
    exact hcross
  have h2 : b.pos.x - b.tag.velocity < -b.tag.width := by
    rw [hbv, hbw, hbx]
    exact hcross
  have hpass : obstaclePass rng k [t, b]
      = ([({ t with pos := { t.pos with x := 1024, y := (gapChoice (rng k)).top_y } }, true),
          ({ b with pos := { b.pos with x := 1024, y := 600 } }, true)],
         [(spawnPair (gapChoice (rng k))).1, (spawnPair (gapChoice (rng k))).2], k + 2) := by
    simp only [obstaclePass, if_pos h1, if_pos h2, ht, hb, if_true,
      Bool.false_eq_true, if_false]
  refine ⟨?_, ?_, rfl, rfl, rfl, rfl, by norm_num [spawnPair]⟩
  · intro od hod
    rw [hpass] at hod
    rcases List.mem_cons.mp hod with h | h
    · rw [h]
    · rcases List.mem_cons.mp h with h3 | h3
      · rw [h3]
      · exact absurd h3 (List.not_mem_nil od)
  · rw [hpass]
    simp [maintainObstacles]

/-- A top obstacle half at x = -65 (already past -64), as in the spec's
recycle scenario. -/
def retiringTop : Obstacle :=
  ⟨⟨-65, -120, 0, 0⟩, ⟨4, 64, 1⟩, true, 3, ⟨-65, -120, 240, 64⟩⟩

/-- The bottom obstacle half paired with `retiringTop`. -/
def retiringBottom : Obstacle :=
  ⟨⟨-65, 360, 0, 0⟩, ⟨4, 64, 1⟩, false, 1, ⟨-65, 360, 240, 64⟩⟩

/-- Witness for Claim C7's theorem: the pair at x = -65 with velocity
4.0 and tile width 64.0 is destroyed this tick and replaced by exactly
one new top and one new bottom at x = 1024.0 with heights summing to
480.0. -/
theorem obstacle_recycle_pair_atomic_witness :
    maintainObstacles (obstaclePass rngZero 0 [retiringTop, retiringBottom]).1
        (obstaclePass rngZero 0 [retiringTop, retiringBottom]).2.1
      = [(spawnPair (gapChoice 0)).1, (spawnPair (gapChoice 0)).2]
    ∧ (spawnPair (gapChoice 0)).1.box.height + (spawnPair (gapChoice 0)).2.box.height = 480 := by
  have h := obstacle_recycle_pair_atomic rngZero 0 retiringTop retiringBottom
    rfl rfl rfl rfl rfl rfl rfl (by norm_num [retiringTop])
  exact ⟨h.2.1, h.2.2.2.2.2.2⟩

/-- A tick never changes `State::player_input` (only key events do). -/
theorem tick_playerInput (rng : ℕ → ℕ) (steps : ℕ) (w : WState) :
    (tick rng steps w).playerInput = w.playerInput := by
  unfold tick
  split <;> rfl

/-- The `Direction` resource after a tick: untouched when the round is
over, otherwise updated by the vertical-integration input rule. -/
theorem tick_dir (rng : ℕ → ℕ) (steps : ℕ) (w : WState) :
    (tick rng steps w).dir
      = if w.game.playing = true then dirAfterInput w.dir else w.dir := by
  cases hb : w.game.playing
  · simp [tick, hb]
  · simp [tick, hb, verticalStep_fst]

/-- With no obstacle entities, a tick preserves the playing flag (no box
can overlap the player) and keeps the obstacle list empty. -/
theorem tick_no_obstacles (rng : ℕ → ℕ) (steps : ℕ) (w : WState)
    (h : w.obstacles = []) :
    (tick rng steps w).game.playing = w.game.playing
    ∧ (tick rng steps w).obstacles = [] := by
  cases hb : w.game.playing
  · constructor <;> simp [tick, hb, h]
  · constructor <;> simp [tick, hb, h, obstaclePass, collisionRun]

/-- The input rule leaves `Direction` alone when no jump is pending. -/
theorem dirAfterInput_of_jump_false (d : Direction) (h : d.jump = false) :
    dirAfterInput d = d := by
  unfold dirAfterInput
  rw [h]
  simp

/-- Claim C10: after a Space press event (jump_requested set,
jump_key_released cleared), the `Direction` resource stays at
(jump pending, not released) across any number of ticks and no Movement
System invocation in that span applies the -10.0 impulse or clears the
request; the release event then yields (jump pending, released), and —
in a running round, stated with no obstacle entities so that no
collision can end it — the first Movement invocation after the release
applies the impulse (under the speed guard) and clears `jump_requested`,
after which no later invocation applies an impulse again.  So the jump
takes effect on key release, not key press. -/
theorem jump_release_gating (rng : ℕ → ℕ) (steps n : ℕ) (s0 : WState) :
    (∀ k, ((tick rng steps)^[k] (pressEvent s0)).dir = ⟨true, false⟩)
    ∧ (∀ k v, velAfterInput ((tick rng steps)^[k] (pressEvent s0)).dir v ≠ v - 10)
    ∧ (releaseEvent ((tick rng steps)^[n] (pressEvent s0))).dir = ⟨true, true⟩
    ∧ (s0.game.playing = true → s0.obstacles = [] →
        (releaseEvent ((tick rng steps)^[n] (pressEvent s0))).player.sy > -10 →
        velAfterInput (releaseEvent ((tick rng steps)^[n] (pressEvent s0))).dir
            (releaseEvent ((tick rng steps)^[n] (pressEvent s0))).player.sy
          = (releaseEvent ((tick rng steps)^[n] (pressEvent s0))).player.sy - 10
        ∧ (tick rng steps (releaseEvent ((tick rng steps)^[n] (pressEvent s0)))).dir.jump
            = false
        ∧ ∀ j v, velAfterInput
            ((tick rng steps)^[j]
              (tick rng steps (releaseEvent ((tick rng steps)^[n] (pressEvent s0))))).dir v
            ≠ v - 10) := by
  have hheld : ∀ k, ((tick rng steps)^[k] (pressEvent s0)).dir = ⟨true, false⟩ := by
    intro k
    induction k with
    | zero => rfl
    | succ k ih =>
      rw [Function.iterate_succ_apply', tick_dir, ih]
      split <;> rfl
  have hpi : ∀ k, ((tick rng steps)^[k] (pressEvent s0)).playerInput = ⟨true, false⟩ := by
    intro k
    induction k with
    | zero => rfl
    | succ k ih =>
      rw [Function.iterate_succ_apply', tick_playerInput]
      exact ih
  have hreldir : (releaseEvent ((tick rng steps)^[n] (pressEvent s0))).dir = ⟨true, true⟩ := by
    unfold releaseEvent
    dsimp only
    rw [hpi n]
  refine ⟨hheld, ?_, hreldir, ?_⟩
  · intro k v
    apply velAfterInput_ne_impulse
    rw [hheld k]
    exact Or.inr rfl
  · intro hp ho hv
    have hinv : ∀ k, ((tick rng steps)^[k] (pressEvent s0)).game.playing = true
        ∧ ((tick rng steps)^[k] (pressEvent s0)).obstacles = [] := by
      intro k
      induction k with
      | zero => exact ⟨hp, ho⟩
      | succ k ih =>
        rw [Function.iterate_succ_apply']
        have h2 := tick_no_obstacles rng steps _ ih.2
        exact ⟨h2.1.trans ih.1, h2.2⟩
    have hupl : (releaseEvent ((tick rng steps)^[n] (pressEvent s0))).game.playing = true :=
      (hinv n).1
    have hjump0 :
        (tick rng steps (releaseEvent ((tick rng steps)^[n] (pressEvent s0)))).dir.jump
          = false := by
      rw [tick_dir, if_pos hupl, hreldir]
      rfl
    refine ⟨?_, hjump0, ?_⟩
    · rw [hreldir]
      simp [velAfterInput, hv]
    · have hjmp : ∀ j, ((tick rng steps)^[j]
          (tick rng steps (releaseEvent ((tick rng steps)^[n] (pressEvent s0))))).dir.jump
            = false := by
        intro j
        induction j with
        | zero => exact hjump0
        | succ j ih =>
          rw [Function.iterate_succ_apply', tick_dir]
          split
          · rw [dirAfterInput_of_jump_false _ ih]
            exact ih
          · exact ih
      intro j v
      exact velAfterInput_ne_impulse _ v (Or.inl (hjmp j))

/-- Witness for Claim C10's theorem: press then release from the
obstacle-free initial state — the next Movement invocation applies the
-10.0 impulse to the bird's speed 0 and clears the jump request. -/
theorem jump_release_gating_witness :
    velAfterInput (releaseEvent (pressEvent skyWorld)).dir
        (releaseEvent (pressEvent skyWorld)).player.sy
      = (releaseEvent (pressEvent skyWorld)).player.sy - 10
    ∧ (tick rngZero 0 (releaseEvent (pressEvent skyWorld))).dir.jump = false := by
  have h := (jump_release_gating rngZero 0 0 skyWorld).2.2.2 rfl rfl
    (by norm_num [releaseEvent, pressEvent, skyWorld, initWorld])
  exact ⟨h.1, h.2.1⟩

end RustyBird
